import Mathlib

/-!
Verification of the rigid-body store bindings (3D build) of the rapier.js
binding layer.

The file `src/dynamics/rigid_body.rs` contains the wrapper methods of
`RawRigidBodySet` (`rbTranslation`, `rbSetTranslation`, `rbSetRotation`,
`rbApplyImpulse`, `rbWakeUp`, ...).  Those wrappers are embedded here
directly from the source.  The plumbing they rely on — `map`, `map_mut`,
`map_mut_wake` from `rigid_body_set.rs` (a file of this repository not
included in the sources) and the engine-side body operations
(`set_position`, `set_next_kinematic_position`, `wake_up`, `apply_force`,
`apply_impulse`, the integrator) — is modelled from the specification, as
indicated on each definition.

Floating-point scalars are modelled by rationals: every operation in
scope is a plain store/retrieve or a `+`/`*` combination, so the claims
under verification do not depend on rounding.
-/

namespace Rapier

/-- Scalars of the physics store.  The binding uses `f32`; the operations in
scope only store, add and multiply, so we model scalars by `ℚ`. -/
abbrev Scalar := ℚ

/-- A 3D vector marshalled across the binding boundary (`RawVector`). -/
structure RawVector where
  x : Scalar
  y : Scalar
  z : Scalar
deriving DecidableEq

/-- Componentwise vector addition. -/
def RawVector.add (v w : RawVector) : RawVector :=
  ⟨v.x + w.x, v.y + w.y, v.z + w.z⟩

/-- Multiplication of a vector by a scalar, componentwise. -/
def RawVector.smul (v : RawVector) (k : Scalar) : RawVector :=
  ⟨k * v.x, k * v.y, k * v.z⟩

/-- The zero vector. -/
def RawVector.zero : RawVector := ⟨0, 0, 0⟩

/-- A quaternion marshalled across the binding boundary (`RawRotation`,
3D build): vector components `x`, `y`, `z` and scalar component `w`. -/
structure RawRotation where
  x : Scalar
  y : Scalar
  z : Scalar
  w : Scalar
deriving DecidableEq

/-- The squared magnitude of a quaternion. -/
def RawRotation.normSq (q : RawRotation) : Scalar :=
  q.x ^ 2 + q.y ^ 2 + q.z ^ 2 + q.w ^ 2

/-- Modelled from the spec: `na::Unit::try_new(q, 0.0)` (external nalgebra
code) rejects a degenerate quaternion — it returns `None` exactly when the
magnitude of `q` is zero, i.e. when `normSq q = 0` — and otherwise accepts
it, rescaling it to unit magnitude.  The rescaling factor is an external
numeric detail none of the verified claims depend on (they only observe
acceptance/rejection and which pose component is overwritten), so the
accepted quaternion is carried as given. -/
def unitTryNew (q : RawRotation) : Option RawRotation :=
  if q.normSq = 0 then none else some q

/-- A pose: translation plus rotation (nalgebra `Isometry3`). -/
structure Isometry where
  translation : RawVector
  rotation : RawRotation
deriving DecidableEq

/-- The engine-side body type: static, dynamic, or kinematic. -/
inductive BodyStatus where
  | Static
  | Dynamic
  | Kinematic
deriving DecidableEq

/-- The body type marshalled across the binding boundary. -/
inductive RawBodyStatus where
  | Static
  | Dynamic
  | Kinematic
deriving DecidableEq

/-- The conversion `rb.body_status.into()` used by `rbBodyType`. -/
def BodyStatus.into : BodyStatus → RawBodyStatus
  | .Static => .Static
  | .Dynamic => .Dynamic
  | .Kinematic => .Kinematic

/-- Modelled from the spec: one rigid-body record of the store
(`RigidBody` of the wrapped engine, not included in the sources).  Fields
follow the spec's data model: body type, current pose, predicted pose,
velocities, per-step force/torque accumulators, mass data, the sleeping
flag with its idle timer, and the attached collider handles. -/
structure RigidBody where
  body_status : BodyStatus
  position : Isometry
  predicted_position : Isometry
  linvel : RawVector
  angvel : RawVector
  force_acc : RawVector
  torque_acc : RawVector
  mass : Scalar
  inv_mass : Scalar
  sleeping : Bool
  idle_timer : Scalar
  colliders : List Nat
deriving DecidableEq

/-- Modelled from the spec: `RigidBody::wake_up` of the wrapped engine —
unconditionally clears the sleeping flag and resets the idle timer. -/
def RigidBody.wake_up (rb : RigidBody) : RigidBody :=
  { rb with sleeping := false, idle_timer := 0 }

/-- Modelled from the spec: `RigidBody::set_position` — a direct overwrite
of the current pose, not integrated. -/
def RigidBody.set_position (rb : RigidBody) (pos : Isometry) : RigidBody :=
  { rb with position := pos }

/-- Modelled from the spec: `RigidBody::set_next_kinematic_position` — a
direct overwrite of the predicted pose. -/
def RigidBody.set_next_kinematic_position (rb : RigidBody) (pos : Isometry) :
    RigidBody :=
  { rb with predicted_position := pos }

/-- Modelled from the spec: `RigidBody::apply_force` — adds to the force
accumulator (cleared by the next integration step); a no-op on Static
bodies, whose accumulators are never mutated. -/
def RigidBody.apply_force (rb : RigidBody) (f : RawVector) : RigidBody :=
  if rb.body_status = .Static then rb
  else { rb with force_acc := rb.force_acc.add f }

/-- Modelled from the spec: `RigidBody::apply_impulse` — directly mutates
the linear velocity by `impulse * inverseMass`; a no-op on Static bodies,
whose velocities are never mutated. -/
def RigidBody.apply_impulse (rb : RigidBody) (j : RawVector) : RigidBody :=
  if rb.body_status = .Static then rb
  else { rb with linvel := rb.linvel.add (j.smul rb.inv_mass) }

/-- Modelled from the spec: `RigidBody::apply_torque` — adds to the torque
accumulator; a no-op on Static bodies. -/
def RigidBody.apply_torque (rb : RigidBody) (t : RawVector) : RigidBody :=
  if rb.body_status = .Static then rb
  else { rb with torque_acc := rb.torque_acc.add t }

/-- Modelled from the spec: `RigidBody::apply_torque_impulse` — directly
mutates the angular velocity; a no-op on Static bodies. -/
def RigidBody.apply_torque_impulse (rb : RigidBody) (t : RawVector) :
    RigidBody :=
  if rb.body_status = .Static then rb
  else { rb with angvel := rb.angvel.add (t.smul rb.inv_mass) }

/-- Modelled from the spec: one integration pass of the external
integrator over a single body.  A sleeping body is excluded from the pass
(left unchanged); an awake Dynamic body is advanced by semi-implicit
Euler — the accumulated force changes the linear velocity by
`force * inverseMass * dt`, the new velocity advances the translation,
and the accumulators are cleared; Static and Kinematic bodies are not
advanced by forces. -/
def RigidBody.integrate (dt : Scalar) (rb : RigidBody) : RigidBody :=
  if rb.sleeping then rb
  else if rb.body_status = .Dynamic then
    let newLinvel := rb.linvel.add ((rb.force_acc.smul rb.inv_mass).smul dt)
    { rb with
      linvel := newLinvel
      position :=
        { rb.position with
          translation := rb.position.translation.add (newLinvel.smul dt) }
      force_acc := RawVector.zero
      torque_acc := RawVector.zero }
  else rb

/-- The error taxonomy of the spec for read paths. -/
inductive StoreError where
  | NotFound
deriving DecidableEq

/-- The rigid-body store (`RawRigidBodySet`): a handle-indexed arena of
body records; a handle is live when its slot holds a record. -/
structure RawRigidBodySet where
  bodies : List (Option RigidBody)
deriving DecidableEq

/-- Handle lookup into the store: `some` body for a live handle, `none`
for a dead or out-of-range one. -/
def RawRigidBodySet.lookup (s : RawRigidBodySet) (handle : Nat) :
    Option RigidBody :=
  (s.bodies[handle]?).getD none

/-- Modelled from the spec: `RawRigidBodySet::map` of `rigid_body_set.rs`
(a file of this repository not included in the sources) — resolves the
handle and applies the read accessor to the body; a handle that does not
correspond to a live body surfaces `NotFound` to the caller, never a
defaulted value. -/
def RawRigidBodySet.map (s : RawRigidBodySet) (handle : Nat)
    (f : RigidBody → α) : Except StoreError α :=
  match s.lookup handle with
  | some rb => .ok (f rb)
  | none => .error .NotFound

/-- Modelled from the spec: `RawRigidBodySet::map_mut` of
`rigid_body_set.rs` — resolves the handle and replaces the body by the
mutated record; a dead handle leaves the store unchanged. -/
def RawRigidBodySet.map_mut (s : RawRigidBodySet) (handle : Nat)
    (f : RigidBody → RigidBody) : RawRigidBodySet :=
  match s.lookup handle with
  | some rb => ⟨s.bodies.set handle (some (f rb))⟩
  | none => s

/-- Modelled from the spec: `RawRigidBodySet::map_mut_wake` of
`rigid_body_set.rs` — like `map_mut`, but when `wakeUp` is true the body
is forced out of the sleeping state before the mutation is applied. -/
def RawRigidBodySet.map_mut_wake (s : RawRigidBodySet) (handle : Nat)
    (wakeUp : Bool) (f : RigidBody → RigidBody) : RawRigidBodySet :=
  s.map_mut handle (fun rb => f (if wakeUp then rb.wake_up else rb))

/-- Modelled from the spec: one integration pass of the external
integrator over the whole store. -/
def RawRigidBodySet.step (s : RawRigidBodySet) (dt : Scalar) :
    RawRigidBodySet :=
  ⟨s.bodies.map (Option.map (RigidBody.integrate dt))⟩

namespace RawRigidBodySet

/-- The world-space translation of this rigid-body. -/
def rbTranslation (s : RawRigidBodySet) (handle : Nat) :
    Except StoreError RawVector :=
  s.map handle (fun rb => rb.position.translation)

/-- The world-space orientation of this rigid-body. -/
def rbRotation (s : RawRigidBodySet) (handle : Nat) :
    Except StoreError RawRotation :=
  s.map handle (fun rb => rb.position.rotation)

/-- The world-space predicted translation of this rigid-body. -/
def rbPredictedTranslation (s : RawRigidBodySet) (handle : Nat) :
    Except StoreError RawVector :=
  s.map handle (fun rb => rb.predicted_position.translation)

/-- The world-space predicted orientation of this rigid-body. -/
def rbPredictedRotation (s : RawRigidBodySet) (handle : Nat) :
    Except StoreError RawRotation :=
  s.map handle (fun rb => rb.predicted_position.rotation)

/-- Sets the translation of this rigid-body (3D build): reads the current
pose, replaces its translation vector by `(x, y, z)`, and writes it back
with `set_position`, waking the body first when `wakeUp` is set. -/
def rbSetTranslation (s : RawRigidBodySet) (handle : Nat)
    (x y z : Scalar) (wakeUp : Bool) : RawRigidBodySet :=
  s.map_mut_wake handle wakeUp (fun rb =>
    rb.set_position { rb.position with translation := ⟨x, y, z⟩ })

/-- Sets the rotation quaternion of this rigid-body (3D build).  The
quaternion `(x, y, z, w)` is first passed to `Unit::try_new`; the whole
call, lookup and wake included, happens only when it is accepted, so a
zero quaternion makes the call do nothing. -/
def rbSetRotation (s : RawRigidBodySet) (handle : Nat)
    (x y z w : Scalar) (wakeUp : Bool) : RawRigidBodySet :=
  match unitTryNew ⟨x, y, z, w⟩ with
  | some q =>
      s.map_mut_wake handle wakeUp (fun rb =>
        rb.set_position { rb.position with rotation := q })
  | none => s

/-- If this rigid body is kinematic, sets its future translation after the
next timestep integration (3D build): reads the predicted pose, replaces
its translation vector, and writes it back; no wake-up is involved. -/
def rbSetNextKinematicTranslation (s : RawRigidBodySet) (handle : Nat)
    (x y z : Scalar) : RawRigidBodySet :=
  s.map_mut handle (fun rb =>
    rb.set_next_kinematic_position
      { rb.predicted_position with translation := ⟨x, y, z⟩ })

/-- If this rigid body is kinematic, sets its future rotation after the
next timestep integration (3D build).  As in `rbSetRotation`, a degenerate
quaternion makes the whole call do nothing; no wake-up is involved. -/
def rbSetNextKinematicRotation (s : RawRigidBodySet) (handle : Nat)
    (x y z w : Scalar) : RawRigidBodySet :=
  match unitTryNew ⟨x, y, z, w⟩ with
  | some q =>
      s.map_mut handle (fun rb =>
        rb.set_next_kinematic_position
          { rb.predicted_position with rotation := q })
  | none => s

/-- The linear velocity of this rigid-body. -/
def rbLinvel (s : RawRigidBodySet) (handle : Nat) :
    Except StoreError RawVector :=
  s.map handle (fun rb => rb.linvel)

/-- The mass of this rigid-body. -/
def rbMass (s : RawRigidBodySet) (handle : Nat) : Except StoreError Scalar :=
  s.map handle (fun rb => rb.mass)

/-- Wakes this rigid-body up. -/
def rbWakeUp (s : RawRigidBodySet) (handle : Nat) : RawRigidBodySet :=
  s.map_mut handle (fun rb => rb.wake_up)

/-- The number of colliders attached to this rigid-body. -/
def rbNumColliders (s : RawRigidBodySet) (handle : Nat) :
    Except StoreError Nat :=
  s.map handle (fun rb => rb.colliders.length)

/-- The type of this rigid-body: static, dynamic, or kinematic. -/
def rbBodyType (s : RawRigidBodySet) (handle : Nat) :
    Except StoreError RawBodyStatus :=
  s.map handle (fun rb => rb.body_status.into)

/-- Is this rigid-body static? -/
def rbIsStatic (s : RawRigidBodySet) (handle : Nat) :
    Except StoreError Bool :=
  s.map handle (fun rb => decide (rb.body_status = .Static))

/-- Is this rigid-body kinematic? -/
def rbIsKinematic (s : RawRigidBodySet) (handle : Nat) :
    Except StoreError Bool :=
  s.map handle (fun rb => decide (rb.body_status = .Kinematic))

/-- Is this rigid-body dynamic? -/
def rbIsDynamic (s : RawRigidBodySet) (handle : Nat) :
    Except StoreError Bool :=
  s.map handle (fun rb => decide (rb.body_status = .Dynamic))

/-- Applies a force at the center-of-mass of this rigid-body. -/
def rbApplyForce (s : RawRigidBodySet) (handle : Nat) (force : RawVector)
    (wakeUp : Bool) : RawRigidBodySet :=
  s.map_mut_wake handle wakeUp (fun rb => rb.apply_force force)

/-- Applies an impulse at the center-of-mass of this rigid-body. -/
def rbApplyImpulse (s : RawRigidBodySet) (handle : Nat) (impulse : RawVector)
    (wakeUp : Bool) : RawRigidBodySet :=
  s.map_mut_wake handle wakeUp (fun rb => rb.apply_impulse impulse)

/-- Applies a torque at the center-of-mass of this rigid-body (3D build). -/
def rbApplyTorque (s : RawRigidBodySet) (handle : Nat) (torque : RawVector)
    (wakeUp : Bool) : RawRigidBodySet :=
  s.map_mut_wake handle wakeUp (fun rb => rb.apply_torque torque)

/-- Applies an impulsive torque at the center-of-mass of this rigid-body
(3D build). -/
def rbApplyTorqueImpulse (s : RawRigidBodySet) (handle : Nat)
    (torque_impulse : RawVector) (wakeUp : Bool) : RawRigidBodySet :=
  s.map_mut_wake handle wakeUp (fun rb => rb.apply_torque_impulse torque_impulse)

end RawRigidBodySet

/-- The identity quaternion, used by the concrete witnesses. -/
def qId : RawRotation := ⟨0, 0, 0, 1⟩

/-- A sample awake Dynamic body for the concrete witnesses. -/
def bodyD : RigidBody :=
  { body_status := .Dynamic
    position := ⟨⟨0, 0, 0⟩, qId⟩
    predicted_position := ⟨⟨0, 0, 0⟩, qId⟩
    linvel := ⟨0, 0, 0⟩
    angvel := ⟨0, 0, 0⟩
    force_acc := ⟨0, 0, 0⟩
    torque_acc := ⟨0, 0, 0⟩
    mass := 1
    inv_mass := 1
    sleeping := false
    idle_timer := 0
    colliders := [] }

/-- A sample Static body for the concrete witnesses. -/
def bodyS : RigidBody :=
  { bodyD with body_status := .Static, mass := 0, inv_mass := 0 }

/-- A sample sleeping Dynamic body for the concrete witnesses. -/
def bodyZ : RigidBody := { bodyD with sleeping := true }

/-- A sample store holding a dynamic, a static and a sleeping body, plus
one dead slot at handle 3. -/
def sampleSet : RawRigidBodySet := ⟨[some bodyD, some bodyS, some bodyZ, none]⟩

/-- A live lookup exposes the underlying arena slot. -/
theorem RawRigidBodySet.lookup_bodies {s : RawRigidBodySet} {h : Nat}
    {rb : RigidBody} (hl : s.lookup h = some rb) :
    s.bodies[h]? = some (some rb) := by
  unfold RawRigidBodySet.lookup at hl
  cases hg : s.bodies[h]? with
  | none => rw [hg] at hl; simp at hl
  | some b => rw [hg] at hl; simp only [Option.getD_some] at hl; rw [hl]

/-- A live handle is within the arena bounds. -/
theorem RawRigidBodySet.lookup_lt {s : RawRigidBodySet} {h : Nat}
    {rb : RigidBody} (hl : s.lookup h = some rb) : h < s.bodies.length :=
  (List.getElem?_eq_some.mp (RawRigidBodySet.lookup_bodies hl)).1

/-- At a live handle, `map_mut` rewrites exactly that slot. -/
theorem RawRigidBodySet.map_mut_eq {s : RawRigidBodySet} {h : Nat}
    {rb : RigidBody} (f : RigidBody → RigidBody) (hl : s.lookup h = some rb) :
    s.map_mut h f = ⟨s.bodies.set h (some (f rb))⟩ := by
  unfold RawRigidBodySet.map_mut
  rw [hl]

/-- At a dead handle, `map_mut` leaves the store unchanged. -/
theorem RawRigidBodySet.map_mut_dead {s : RawRigidBodySet} {h : Nat}
    (f : RigidBody → RigidBody) (hd : s.lookup h = none) :
    s.map_mut h f = s := by
  unfold RawRigidBodySet.map_mut
  rw [hd]

/-- Reading back the handle just mutated by `map_mut`. -/
theorem RawRigidBodySet.lookup_map_mut_self {s : RawRigidBodySet} {h : Nat}
    {rb : RigidBody} (f : RigidBody → RigidBody) (hl : s.lookup h = some rb) :
    (s.map_mut h f).lookup h = some (f rb) := by
  rw [RawRigidBodySet.map_mut_eq f hl]
  show (s.bodies.set h (some (f rb)))[h]?.getD none = some (f rb)
  rw [List.getElem?_set_eq_of_lt _ (RawRigidBodySet.lookup_lt hl)]
  rfl

/-- Reading back the handle just mutated by `map_mut_wake`. -/
theorem RawRigidBodySet.lookup_map_mut_wake_self {s : RawRigidBodySet}
    {h : Nat} {rb : RigidBody} (wk : Bool) (f : RigidBody → RigidBody)
    (hl : s.lookup h = some rb) :
    (s.map_mut_wake h wk f).lookup h
      = some (f (if wk then rb.wake_up else rb)) :=
  RawRigidBodySet.lookup_map_mut_self _ hl

/-- Two `map_mut`s at the same handle fuse into one. -/
theorem RawRigidBodySet.map_mut_map_mut (s : RawRigidBodySet) (h : Nat)
    (f g : RigidBody → RigidBody) :
    (s.map_mut h f).map_mut h g = s.map_mut h (fun rb => g (f rb)) := by
  cases hl : s.lookup h with
  | none =>
      rw [RawRigidBodySet.map_mut_dead f hl, RawRigidBodySet.map_mut_dead g hl,
        RawRigidBodySet.map_mut_dead _ hl]
  | some rb =>
      have h2 : (s.map_mut h f).lookup h = some (f rb) :=
        RawRigidBodySet.lookup_map_mut_self f hl
      rw [RawRigidBodySet.map_mut_eq g h2, RawRigidBodySet.map_mut_eq f hl,
        RawRigidBodySet.map_mut_eq (fun rb => g (f rb)) hl]
      simp only [List.set_set]

/-- Stepping the store integrates each live body in place. -/
theorem RawRigidBodySet.lookup_step (s : RawRigidBodySet) (dt : Scalar)
    (h : Nat) :
    (s.step dt).lookup h = (s.lookup h).map (RigidBody.integrate dt) := by
  show (s.bodies.map (Option.map (RigidBody.integrate dt)))[h]?.getD none
      = (s.bodies[h]?.getD none).map (RigidBody.integrate dt)
  rw [List.getElem?_map]
  cases s.bodies[h]? with
  | none => rfl
  | some ob => cases ob <;> rfl

/-- C1: for a live handle of a Dynamic body, `rbApplyImpulse (h, J, true)`
changes the linear velocity returned by `rbLinvel` by exactly
`J * inverseMass`; for a live Static body the same call never mutates the
velocity, so a zero velocity stays at zero. -/
theorem C1_apply_impulse_linvel (s : RawRigidBodySet) (h : Nat)
    (rb : RigidBody) (J : RawVector) (hl : s.lookup h = some rb) :
    (rb.body_status = .Dynamic →
      (s.rbApplyImpulse h J true).rbLinvel h
        = .ok (rb.linvel.add (J.smul rb.inv_mass)))
    ∧ (rb.body_status = .Static →
      (s.rbApplyImpulse h J true).rbLinvel h = .ok rb.linvel)
    ∧ (rb.body_status = .Static → rb.linvel = RawVector.zero →
      (s.rbApplyImpulse h J true).rbLinvel h = .ok RawVector.zero) := by
  have hk := RawRigidBodySet.lookup_map_mut_wake_self true
    (fun rb => rb.apply_impulse J) hl
  refine ⟨fun hd => ?_, fun hs => ?_, fun hs hz => ?_⟩
  · simp only [RawRigidBodySet.rbApplyImpulse, RawRigidBodySet.rbLinvel,
      RawRigidBodySet.map, hk]
    simp [RigidBody.apply_impulse, RigidBody.wake_up, hd]
  · simp only [RawRigidBodySet.rbApplyImpulse, RawRigidBodySet.rbLinvel,
      RawRigidBodySet.map, hk]
    simp [RigidBody.apply_impulse, RigidBody.wake_up, hs]
  · simp only [RawRigidBodySet.rbApplyImpulse, RawRigidBodySet.rbLinvel,
      RawRigidBodySet.map, hk]
    simp [RigidBody.apply_impulse, RigidBody.wake_up, hs, hz]

/-- C1 witness: a concrete impulse on the sample dynamic and static
bodies. -/
theorem C1_apply_impulse_linvel_witness :
    sampleSet.lookup 0 = some bodyD ∧ sampleSet.lookup 1 = some bodyS ∧
    (sampleSet.rbApplyImpulse 0 ⟨2, 3, 4⟩ true).rbLinvel 0
      = .ok (bodyD.linvel.add (RawVector.smul ⟨2, 3, 4⟩ bodyD.inv_mass)) ∧
    (sampleSet.rbApplyImpulse 1 ⟨2, 3, 4⟩ true).rbLinvel 1
      = .ok RawVector.zero :=
  ⟨rfl, rfl,
    (C1_apply_impulse_linvel sampleSet 0 bodyD ⟨2, 3, 4⟩ rfl).1 rfl,
    (C1_apply_impulse_linvel sampleSet 1 bodyS ⟨2, 3, 4⟩ rfl).2.2 rfl rfl⟩

/-- C2: for a live handle, `rbSetTranslation (h, p, wakeUp)` followed by
`rbTranslation h` returns exactly the stored components `p`, for either
value of the wake-up flag. -/
theorem C2_set_translation_roundtrip (s : RawRigidBodySet) (h : Nat)
    (rb : RigidBody) (x y z : Scalar) (wakeUp : Bool)
    (hl : s.lookup h = some rb) :
    (s.rbSetTranslation h x y z wakeUp).rbTranslation h = .ok ⟨x, y, z⟩ := by
  have hk := RawRigidBodySet.lookup_map_mut_wake_self wakeUp
    (fun rb => rb.set_position { rb.position with translation := ⟨x, y, z⟩ })
    hl
  cases wakeUp <;>
  · simp only [RawRigidBodySet.rbSetTranslation, RawRigidBodySet.rbTranslation,
      RawRigidBodySet.map, hk]
    simp [RigidBody.set_position, RigidBody.wake_up]

/-- C2 witness: a concrete translation round-trip on the sample store. -/
theorem C2_set_translation_roundtrip_witness :
    sampleSet.lookup 0 = some bodyD ∧
    (sampleSet.rbSetTranslation 0 5 6 7 true).rbTranslation 0
      = .ok ⟨5, 6, 7⟩ :=
  ⟨rfl, C2_set_translation_roundtrip sampleSet 0 bodyD 5 6 7 true rfl⟩

/-- C3: `rbSetRotation` with a zero-magnitude quaternion completes (it is
a total function) and leaves the value returned by `rbRotation`
unchanged, for every store, handle, prior state and wake-up flag. -/
theorem C3_set_rotation_degenerate (s : RawRigidBodySet) (h : Nat)
    (x y z w : Scalar) (wakeUp : Bool)
    (hq : RawRotation.normSq ⟨x, y, z, w⟩ = 0) :
    (s.rbSetRotation h x y z w wakeUp).rbRotation h = s.rbRotation h := by
  simp [RawRigidBodySet.rbSetRotation, unitTryNew, hq]

/-- C3 witness: the zero quaternion on the sample store. -/
theorem C3_set_rotation_degenerate_witness :
    RawRotation.normSq ⟨0, 0, 0, 0⟩ = 0 ∧
    (sampleSet.rbSetRotation 0 0 0 0 0 true).rbRotation 0
      = sampleSet.rbRotation 0 := by
  have hq : RawRotation.normSq ⟨0, 0, 0, 0⟩ = 0 := by
    norm_num [RawRotation.normSq]
  exact ⟨hq, C3_set_rotation_degenerate sampleSet 0 0 0 0 0 true hq⟩

/-- C4: a pose write with `wakeUp = true` clears the sleeping state (flag
and idle timer) together with applying the mutation; with
`wakeUp = false` the mutation is still applied and every other field,
the sleeping state included, is left unchanged.  For `rbSetRotation` the
quaternion is assumed non-degenerate, the degenerate case being the
skip handled by C3 and C9. -/
theorem C4_pose_write_wake_semantics (s : RawRigidBodySet) (h : Nat)
    (rb : RigidBody) (x y z qx qy qz qw : Scalar)
    (hl : s.lookup h = some rb)
    (hq : RawRotation.normSq ⟨qx, qy, qz, qw⟩ ≠ 0) :
    ((s.rbSetTranslation h x y z true).lookup h
      = some { rb with
                sleeping := false
                idle_timer := 0
                position := { rb.position with translation := ⟨x, y, z⟩ } })
    ∧ ((s.rbSetTranslation h x y z false).lookup h
      = some { rb with
                position := { rb.position with translation := ⟨x, y, z⟩ } })
    ∧ ((s.rbSetRotation h qx qy qz qw true).lookup h
      = some { rb with
                sleeping := false
                idle_timer := 0
                position := { rb.position with rotation := ⟨qx, qy, qz, qw⟩ } })
    ∧ ((s.rbSetRotation h qx qy qz qw false).lookup h
      = some { rb with
                position := { rb.position with rotation := ⟨qx, qy, qz, qw⟩ } }) := by
  refine ⟨?_, ?_, ?_, ?_⟩
  · have hk := RawRigidBodySet.lookup_map_mut_wake_self true
      (fun rb => rb.set_position { rb.position with translation := ⟨x, y, z⟩ })
      hl
    simp only [RawRigidBodySet.rbSetTranslation, hk]
    simp [RigidBody.set_position, RigidBody.wake_up]
  · have hk := RawRigidBodySet.lookup_map_mut_wake_self false
      (fun rb => rb.set_position { rb.position with translation := ⟨x, y, z⟩ })
      hl
    simp only [RawRigidBodySet.rbSetTranslation, hk]
    simp [RigidBody.set_position]
  · have hk := RawRigidBodySet.lookup_map_mut_wake_self true
      (fun rb => rb.set_position
        { rb.position with rotation := ⟨qx, qy, qz, qw⟩ }) hl
    simp only [RawRigidBodySet.rbSetRotation, unitTryNew, RawRotation.normSq]
    rw [if_neg (by simpa [RawRotation.normSq] using hq)]
    simp only [hk]
    simp [RigidBody.set_position, RigidBody.wake_up]
  · have hk := RawRigidBodySet.lookup_map_mut_wake_self false
      (fun rb => rb.set_position
        { rb.position with rotation := ⟨qx, qy, qz, qw⟩ }) hl
    simp only [RawRigidBodySet.rbSetRotation, unitTryNew, RawRotation.normSq]
    rw [if_neg (by simpa [RawRotation.normSq] using hq)]
    simp only [hk]
    simp [RigidBody.set_position]

/-- C4 witness: pose writes on the sample sleeping body, with either
wake-up flag. -/
theorem C4_pose_write_wake_semantics_witness :
    sampleSet.lookup 2 = some bodyZ ∧
    RawRotation.normSq ⟨0, 0, 0, 1⟩ ≠ 0 ∧
    (sampleSet.rbSetTranslation 2 5 6 7 true).lookup 2
      = some { bodyZ with
                sleeping := false
                idle_timer := 0
                position := { bodyZ.position with translation := ⟨5, 6, 7⟩ } } ∧
    (sampleSet.rbSetTranslation 2 5 6 7 false).lookup 2
      = some { bodyZ with
                position := { bodyZ.position with translation := ⟨5, 6, 7⟩ } } := by
  have hq : RawRotation.normSq ⟨0, 0, 0, 1⟩ ≠ 0 := by
    norm_num [RawRotation.normSq]
  have hc := C4_pose_write_wake_semantics sampleSet 2 bodyZ 5 6 7 0 0 0 1
    rfl hq
  exact ⟨rfl, hq, hc.1, hc.2.1⟩

/-- C5: on a handle that does not resolve to a live body, every read
accessor surfaces `NotFound` instead of silently returning a defaulted
value. -/
theorem C5_dead_handle_reads (s : RawRigidBodySet) (h : Nat)
    (hd : s.lookup h = none) :
    s.rbTranslation h = .error .NotFound
    ∧ s.rbRotation h = .error .NotFound
    ∧ s.rbPredictedTranslation h = .error .NotFound
    ∧ s.rbPredictedRotation h = .error .NotFound
    ∧ s.rbLinvel h = .error .NotFound
    ∧ s.rbMass h = .error .NotFound
    ∧ s.rbBodyType h = .error .NotFound
    ∧ s.rbIsStatic h = .error .NotFound
    ∧ s.rbIsKinematic h = .error .NotFound
    ∧ s.rbIsDynamic h = .error .NotFound
    ∧ s.rbNumColliders h = .error .NotFound := by
  refine ⟨?_, ?_, ?_, ?_, ?_, ?_, ?_, ?_, ?_, ?_, ?_⟩ <;>
    simp [RawRigidBodySet.rbTranslation, RawRigidBodySet.rbRotation,
      RawRigidBodySet.rbPredictedTranslation,
      RawRigidBodySet.rbPredictedRotation, RawRigidBodySet.rbLinvel,
      RawRigidBodySet.rbMass, RawRigidBodySet.rbBodyType,
      RawRigidBodySet.rbIsStatic, RawRigidBodySet.rbIsKinematic,
      RawRigidBodySet.rbIsDynamic, RawRigidBodySet.rbNumColliders,
      RawRigidBodySet.map, hd]

/-- C5 witness: the dead slot of the sample store surfaces `NotFound` on
representative read accessors. -/
theorem C5_dead_handle_reads_witness :
    sampleSet.lookup 3 = none ∧
    sampleSet.rbTranslation 3 = .error .NotFound ∧
    sampleSet.rbMass 3 = .error .NotFound :=
  ⟨rfl, (C5_dead_handle_reads sampleSet 3 rfl).1,
    (C5_dead_handle_reads sampleSet 3 rfl).2.2.2.2.2.1⟩

/-- C6: on a live sleeping body, `rbApplyForce (h, F, false)` is accepted
but leaves the body sleeping, and a sleeping body is excluded from the
next integration pass, so its pose and velocity do not change; with
`wakeUp = true` the body is woken, and on a Dynamic body the accumulated
force is applied by the next integration pass. -/
theorem C6_force_on_sleeping (s : RawRigidBodySet) (h : Nat)
    (rb : RigidBody) (F : RawVector) (dt : Scalar)
    (hl : s.lookup h = some rb) (hs : rb.sleeping = true) :
    (((s.rbApplyForce h F false).lookup h).map RigidBody.sleeping
      = some true)
    ∧ ((((s.rbApplyForce h F false).step dt).lookup h).map
        (fun b => (b.position, b.linvel)) = some (rb.position, rb.linvel))
    ∧ (((s.rbApplyForce h F true).lookup h).map RigidBody.sleeping
      = some false)
    ∧ (rb.body_status = .Dynamic →
        (((s.rbApplyForce h F true).step dt).lookup h).map RigidBody.linvel
          = some (rb.linvel.add
              (((rb.force_acc.add F).smul rb.inv_mass).smul dt))) := by
  have hk0 := RawRigidBodySet.lookup_map_mut_wake_self false
    (fun rb => rb.apply_force F) hl
  have hk1 := RawRigidBodySet.lookup_map_mut_wake_self true
    (fun rb => rb.apply_force F) hl
  refine ⟨?_, ?_, ?_, fun hd => ?_⟩
  · simp only [RawRigidBodySet.rbApplyForce, hk0]
    by_cases hb : rb.body_status = .Static <;>
      simp [RigidBody.apply_force, hb, hs]
  · simp only [RawRigidBodySet.rbApplyForce, RawRigidBodySet.lookup_step, hk0]
    by_cases hb : rb.body_status = .Static <;>
      simp [RigidBody.integrate, RigidBody.apply_force, hb, hs]
  · simp only [RawRigidBodySet.rbApplyForce, hk1]
    by_cases hb : rb.body_status = .Static <;>
      simp [RigidBody.apply_force, RigidBody.wake_up, hb]
  · simp only [RawRigidBodySet.rbApplyForce, RawRigidBodySet.lookup_step, hk1]
    simp [RigidBody.integrate, RigidBody.apply_force, RigidBody.wake_up, hd]

/-- C6 witness: a concrete force on the sample sleeping body, with both
wake-up flags, followed by one integration pass. -/
theorem C6_force_on_sleeping_witness :
    sampleSet.lookup 2 = some bodyZ ∧ bodyZ.sleeping = true ∧
    ((((sampleSet.rbApplyForce 2 ⟨1, 0, 0⟩ false).step 1).lookup 2).map
      (fun b => (b.position, b.linvel)) = some (bodyZ.position, bodyZ.linvel)) ∧
    ((((sampleSet.rbApplyForce 2 ⟨1, 0, 0⟩ true).step 1).lookup 2).map
      RigidBody.linvel
      = some (bodyZ.linvel.add
          (((bodyZ.force_acc.add ⟨1, 0, 0⟩).smul bodyZ.inv_mass).smul 1))) := by
  have hc := C6_force_on_sleeping sampleSet 2 bodyZ ⟨1, 0, 0⟩ 1 rfl rfl
  exact ⟨rfl, rfl, hc.2.1, hc.2.2.2 rfl⟩

/-- C7: the next-kinematic setters mutate only the predicted pose — the
sleeping state and every other field are untouched — as a direct
overwrite of one predicted-pose component; a degenerate quaternion makes
`rbSetNextKinematicRotation` do nothing at all. -/
theorem C7_next_kinematic_no_wake (s : RawRigidBodySet) (h : Nat)
    (rb : RigidBody) (x y z qx qy qz qw : Scalar) (q : RawRotation)
    (hl : s.lookup h = some rb)
    (hq : unitTryNew ⟨qx, qy, qz, qw⟩ = some q) :
    ((s.rbSetNextKinematicTranslation h x y z).lookup h
      = some { rb with
                predicted_position :=
                  { rb.predicted_position with translation := ⟨x, y, z⟩ } })
    ∧ ((s.rbSetNextKinematicRotation h qx qy qz qw).lookup h
      = some { rb with
                predicted_position :=
                  { rb.predicted_position with rotation := q } })
    ∧ (∀ a b c d : Scalar, RawRotation.normSq ⟨a, b, c, d⟩ = 0 →
        s.rbSetNextKinematicRotation h a b c d = s) := by
  refine ⟨?_, ?_, fun a b c d hz => ?_⟩
  · have hk := RawRigidBodySet.lookup_map_mut_self
      (fun rb => rb.set_next_kinematic_position
        { rb.predicted_position with translation := ⟨x, y, z⟩ }) hl
    simp only [RawRigidBodySet.rbSetNextKinematicTranslation, hk]
    simp [RigidBody.set_next_kinematic_position]
  · have hk := RawRigidBodySet.lookup_map_mut_self
      (fun rb => rb.set_next_kinematic_position
        { rb.predicted_position with rotation := q }) hl
    simp only [RawRigidBodySet.rbSetNextKinematicRotation, hq]
    simp only [hk]
    simp [RigidBody.set_next_kinematic_position]
  · simp [RawRigidBodySet.rbSetNextKinematicRotation, unitTryNew, hz]

/-- C7 witness: concrete next-kinematic writes on the sample dynamic
body, plus the degenerate-quaternion skip. -/
theorem C7_next_kinematic_no_wake_witness :
    sampleSet.lookup 0 = some bodyD ∧
    unitTryNew ⟨0, 0, 0, 1⟩ = some ⟨0, 0, 0, 1⟩ ∧
    ((sampleSet.rbSetNextKinematicTranslation 0 8 9 10).lookup 0
      = some { bodyD with
                predicted_position :=
                  { bodyD.predicted_position with translation := ⟨8, 9, 10⟩ } })
    ∧ (sampleSet.rbSetNextKinematicRotation 0 0 0 0 0 = sampleSet) := by
  have hq : unitTryNew ⟨0, 0, 0, 1⟩ = some ⟨0, 0, 0, 1⟩ := by
    norm_num [unitTryNew, RawRotation.normSq]
  have hc := C7_next_kinematic_no_wake sampleSet 0 bodyD 8 9 10 0 0 0 1
    ⟨0, 0, 0, 1⟩ rfl hq
  exact ⟨rfl, hq, hc.1, hc.2.2 0 0 0 0 (by norm_num [RawRotation.normSq])⟩

/-- C8: `rbWakeUp` unconditionally clears the sleeping flag and resets
the idle timer; calling it twice leaves the same store as calling it
once, and on a body already awake with a reset timer it is a complete
no-op on the store. -/
theorem C8_wake_up_idempotent (s : RawRigidBodySet) (h : Nat)
    (rb : RigidBody) (hl : s.lookup h = some rb) :
    ((s.rbWakeUp h).lookup h
      = some { rb with sleeping := false, idle_timer := 0 })
    ∧ ((s.rbWakeUp h).rbWakeUp h = s.rbWakeUp h)
    ∧ (rb.sleeping = false → rb.idle_timer = 0 → s.rbWakeUp h = s) := by
  refine ⟨?_, ?_, fun hsl hti => ?_⟩
  · exact RawRigidBodySet.lookup_map_mut_self _ hl
  · show (s.map_mut h _).map_mut h _ = s.map_mut h _
    rw [RawRigidBodySet.map_mut_map_mut]
    congr 1
  · have hwake : rb.wake_up = rb := by
      cases rb
      simp_all [RigidBody.wake_up]
    have hbody : s.bodies.set h (some rb) = s.bodies := by
      apply List.ext_getElem?
      intro n
      rcases eq_or_ne h n with rfl | hn
      · rw [List.getElem?_set_eq_of_lt _ (RawRigidBodySet.lookup_lt hl)]
        exact (RawRigidBodySet.lookup_bodies hl).symm
      · exact List.getElem?_set_ne hn
    rw [RawRigidBodySet.rbWakeUp, RawRigidBodySet.map_mut_eq _ hl, hwake,
      hbody]

/-- C8 witness: waking the already-awake sample body. -/
theorem C8_wake_up_idempotent_witness :
    sampleSet.lookup 0 = some bodyD ∧
    (sampleSet.rbWakeUp 0).rbWakeUp 0 = sampleSet.rbWakeUp 0 ∧
    sampleSet.rbWakeUp 0 = sampleSet := by
  have hc := C8_wake_up_idempotent sampleSet 0 bodyD rfl
  exact ⟨rfl, hc.2.1, hc.2.2 rfl rfl⟩

/-- C9: in the 3D build, a zero-magnitude quaternion makes `rbSetRotation`
skip the whole call — the degenerate check precedes the lookup-and-wake
step — so the store is completely unchanged; in particular the body is
not woken even when `wakeUp` is true. -/
theorem C9_degenerate_skips_wake (s : RawRigidBodySet) (h : Nat)
    (x y z w : Scalar) (wakeUp : Bool)
    (hq : RawRotation.normSq ⟨x, y, z, w⟩ = 0) :
    s.rbSetRotation h x y z w wakeUp = s := by
  simp [RawRigidBodySet.rbSetRotation, unitTryNew, hq]

/-- C9 witness: the zero quaternion with `wakeUp = true` on the sample
sleeping body's store. -/
theorem C9_degenerate_skips_wake_witness :
    RawRotation.normSq ⟨0, 0, 0, 0⟩ = 0 ∧
    sampleSet.rbSetRotation 2 0 0 0 0 true = sampleSet := by
  have hq : RawRotation.normSq ⟨0, 0, 0, 0⟩ = 0 := by
    norm_num [RawRotation.normSq]
  exact ⟨hq, C9_degenerate_skips_wake sampleSet 2 0 0 0 0 true hq⟩

/-- C10: each pose setter overwrites exactly one component —
`rbSetNextKinematicTranslation` leaves the predicted rotation unchanged,
`rbSetNextKinematicRotation` leaves the predicted translation unchanged,
`rbSetTranslation` leaves the current rotation unchanged, and
`rbSetRotation` leaves the current translation unchanged — while writing
the given value into the other component. -/
theorem C10_component_framing (s : RawRigidBodySet) (h : Nat)
    (rb : RigidBody) (x y z qx qy qz qw : Scalar) (wakeUp : Bool)
    (q : RawRotation) (hl : s.lookup h = some rb)
    (hq : unitTryNew ⟨qx, qy, qz, qw⟩ = some q) :
    (((s.rbSetNextKinematicTranslation h x y z).lookup h).map
        (fun b => b.predicted_position.rotation)
      = some rb.predicted_position.rotation)
    ∧ (((s.rbSetNextKinematicTranslation h x y z).lookup h).map
        (fun b => b.predicted_position.translation) = some ⟨x, y, z⟩)
    ∧ (((s.rbSetNextKinematicRotation h qx qy qz qw).lookup h).map
        (fun b => b.predicted_position.translation)
      = some rb.predicted_position.translation)
    ∧ (((s.rbSetNextKinematicRotation h qx qy qz qw).lookup h).map
        (fun b => b.predicted_position.rotation) = some q)
    ∧ (((s.rbSetTranslation h x y z wakeUp).lookup h).map
        (fun b => b.position.rotation) = some rb.position.rotation)
    ∧ (((s.rbSetRotation h qx qy qz qw wakeUp).lookup h).map
        (fun b => b.position.translation) = some rb.position.translation) := by
  have hkt := RawRigidBodySet.lookup_map_mut_self
    (fun rb => rb.set_next_kinematic_position
      { rb.predicted_position with translation := ⟨x, y, z⟩ }) hl
  have hkr := RawRigidBodySet.lookup_map_mut_self
    (fun rb => rb.set_next_kinematic_position
      { rb.predicted_position with rotation := q }) hl
  have hct := RawRigidBodySet.lookup_map_mut_wake_self wakeUp
    (fun rb => rb.set_position { rb.position with translation := ⟨x, y, z⟩ })
    hl
  have hcr := RawRigidBodySet.lookup_map_mut_wake_self wakeUp
    (fun rb => rb.set_position { rb.position with rotation := q }) hl
  refine ⟨?_, ?_, ?_, ?_, ?_, ?_⟩
  · simp only [RawRigidBodySet.rbSetNextKinematicTranslation, hkt]
    simp [RigidBody.set_next_kinematic_position]
  · simp only [RawRigidBodySet.rbSetNextKinematicTranslation, hkt]
    simp [RigidBody.set_next_kinematic_position]
  · simp only [RawRigidBodySet.rbSetNextKinematicRotation, hq]
    simp only [hkr]
    simp [RigidBody.set_next_kinematic_position]
  · simp only [RawRigidBodySet.rbSetNextKinematicRotation, hq]
    simp only [hkr]
    simp [RigidBody.set_next_kinematic_position]
  · simp only [RawRigidBodySet.rbSetTranslation, hct]
    cases wakeUp <;> simp [RigidBody.set_position, RigidBody.wake_up]
  · simp only [RawRigidBodySet.rbSetRotation, hq]
    simp only [hcr]
    cases wakeUp <;> simp [RigidBody.set_position, RigidBody.wake_up]

/-- C10 witness: concrete pose writes on the sample dynamic body, reading
back the untouched component. -/
theorem C10_component_framing_witness :
    sampleSet.lookup 0 = some bodyD ∧
    unitTryNew ⟨0, 0, 0, 1⟩ = some ⟨0, 0, 0, 1⟩ ∧
    (((sampleSet.rbSetNextKinematicTranslation 0 8 9 10).lookup 0).map
      (fun b => b.predicted_position.rotation)
      = some bodyD.predicted_position.rotation) ∧
    (((sampleSet.rbSetRotation 0 0 0 0 1 true).lookup 0).map
      (fun b => b.position.translation) = some bodyD.position.translation) := by
  have hq : unitTryNew ⟨0, 0, 0, 1⟩ = some ⟨0, 0, 0, 1⟩ := by
    norm_num [unitTryNew, RawRotation.normSq]
  have hc := C10_component_framing sampleSet 0 bodyD 8 9 10 0 0 0 1 true
    ⟨0, 0, 0, 1⟩ rfl hq
  exact ⟨rfl, hq, hc.1, hc.2.2.2.2.2⟩

end Rapier
